import Mathlib

/-!
Shallow embedding of `src/main.py` (a Streamlit control panel for the
Binance Futures testnet).  The file models:

  * the `BasicBot` class: its constructor and its five facade operations
    (`get_server_time`, `place_market_order`, `place_limit_order`,
    `get_order_status`, `get_account_balance`);
  * the Streamlit form submit handlers that validate user input before
    dispatching to the facade.

Modelling conventions:

  * Python JSON-ish values (dicts, lists, strings, ints) are the inductive
    `Json` below.  A Python dict is an association list of string keys.
  * Python floats coming from form fields are modelled as exact rationals.
    This is exact for every decimal literal that is representable in
    binary64 (such as 20000.5); the model's `pyFloatStr` mirrors CPython's
    shortest-repr rendering on such values (trailing zeros stripped,
    a lone `.0` kept for integral values).
  * Each facade operation interacts with `self.client` through one SDK
    call; the behaviour of that call is passed in as a function from the
    outbound request to a `CallOutcome` (success payload, caught
    `BinanceAPIException` with message and optional parsed response body,
    caught `BinanceOrderException`, or any other exception with a message).
    The caught exception's `e.response` being absent is modelled by the
    body being `none`; `e.response.json()` is the `some` payload.
  * Every `return` path of the Python methods is a branch of the Lean
    function; the methods wrap the body in a catch-all `try/except`, so
    the model is a total function into `Json` (no exception escapes).
  * Side effects that can raise inside the `try` block are modelled:
    `server_time['serverTime']` in the success-path log line of
    `get_server_time`, and `balance_info['asset']` in the scan loop of
    `get_account_balance`, both of which can raise `KeyError`/`TypeError`
    that the generic handler then converts to an error dict (the
    `TypeError` texts are CPython's subscripting messages).
-/

/-- Python `str.upper` on one character (ASCII range, which covers the
symbol/side/asset inputs of this program). -/
def pyUpperChar (c : Char) : Char :=
  if 'a' ≤ c ∧ c ≤ 'z' then Char.ofNat (c.toNat - 32) else c

/-- Python `s.upper()` (ASCII model). -/
def pyUpper (s : String) : String :=
  String.mk (s.data.map pyUpperChar)

/-- JSON-ish Python value: string, integer, list, or dict (association list). -/
inductive Json where
  | str : String → Json
  | num : Int → Json
  | arr : List Json → Json
  | obj : List (String × Json) → Json

/-- Lookup of a key in a Python dict (keys of a real dict are unique, so
first-match lookup is faithful). -/
def lookupField : List (String × Json) → String → Option Json
  | [], _ => none
  | (k, v) :: rest, key => if k = key then some v else lookupField rest key

/-- Python `key in response` for a dict; `False` for non-dict values as used
by the UI code on the facade's dict results. -/
def Json.hasKey (j : Json) (key : String) : Bool :=
  match j with
  | .obj fields => (lookupField fields key).isSome
  | _ => false

/-- Result of Python's `value[key]` subscripting with a string key:
`none` when it succeeds, `some message` when it raises (the `str` of the
raised `KeyError`/`TypeError`, as CPython renders them). -/
def subscriptFailure (j : Json) (key : String) : Option String :=
  match j with
  | .obj fields =>
      match lookupField fields key with
      | some _ => none
      | none => some ("'" ++ key ++ "'")
  | .str _ => some "string indices must be integers"
  | .arr _ => some "list indices must be integers or slices, not str"
  | .num _ => some "'int' object is not subscriptable"

/-- Behaviour of one underlying SDK call as observed by the `try/except`
blocks: a success payload, a caught `BinanceAPIException` (message plus the
optional parsed `e.response` body), a caught `BinanceOrderException`
(likewise), or any other exception (message only). -/
inductive CallOutcome where
  | success : Json → CallOutcome
  | apiExn : String → Option Json → CallOutcome
  | orderExn : String → Option Json → CallOutcome
  | otherExn : String → CallOutcome

/-- True on the three exception behaviours, false on success. -/
def CallOutcome.isFailure : CallOutcome → Bool
  | .success _ => false
  | _ => true

/-- The failure dict built by the specific API/order exception handlers of
the order and lookup operations:
`{"error": str(e), "details": e.response.json() if e.response else "No response details"}`. -/
def apiErrorResult (msg : String) (body : Option Json) : Json :=
  Json.obj [("error", Json.str msg),
            ("details", match body with
                        | some b => b
                        | none => Json.str "No response details")]

/-- The failure dict built by the generic handlers: `{"error": str(e)}`. -/
def plainErrorResult (msg : String) : Json :=
  Json.obj [("error", Json.str msg)]

/-- Handle produced by `BasicBot.__init__`: the `Client` credentials and the
`API_URL` override (`some` when the testnet base URL was substituted,
`none` for the library default). -/
structure BasicBot where
  client_api_key : Option String
  client_api_secret : Option String
  client_api_url : Option String

/-- Base URL constant `TESTNET_BASE_URL` from the module. -/
def TESTNET_BASE_URL : String := "https://testnet.binancefuture.com"

/-- Python truthiness of an optional string credential: `None` and `""` are
falsy. -/
def strTruthy : Option String → Bool
  | none => false
  | some s => decide (s ≠ "")

/-- Model of `BasicBot.__init__(api_key, api_secret, testnet)`: raises
`ValueError` (the `Except.error` branch) when either credential is falsy,
otherwise builds the client handle, overriding `API_URL` when `testnet`. -/
def BasicBot.init (api_key api_secret : Option String) (testnet : Bool) :
    Except String BasicBot :=
  if !strTruthy api_key || !strTruthy api_secret then
    Except.error "API Key and API Secret are required."
  else
    Except.ok ⟨api_key, api_secret,
               if testnet then some (TESTNET_BASE_URL ++ "/fapi") else none⟩

/-- Model of `BasicBot.get_server_time`.  The success-path log line
evaluates `server_time['serverTime']`, so a payload without that key sends
the flow to the generic handler. -/
def BasicBot.get_server_time (client : Unit → CallOutcome) : Json :=
  match client () with
  | .success server_time =>
      match subscriptFailure server_time "serverTime" with
      | none => server_time
      | some msg => plainErrorResult msg
  | .apiExn msg _ => plainErrorResult msg
  | .orderExn msg _ => plainErrorResult msg
  | .otherExn msg => plainErrorResult msg

/-- Outbound request of `futures_create_order` for a market order: the
exact keyword arguments the method passes. -/
structure MarketOrderRequest where
  symbol : String
  side : String
  type : String
  quantity : ℚ
deriving DecidableEq

/-- Request built by `place_market_order`: symbol and side upper-cased,
`type=Client.ORDER_TYPE_MARKET`, quantity passed through. -/
def marketOrderRequest (symbol side : String) (quantity : ℚ) : MarketOrderRequest :=
  ⟨pyUpper symbol, pyUpper side, "MARKET", quantity⟩

/-- Model of `BasicBot.place_market_order(symbol, side, quantity)`. -/
def BasicBot.place_market_order (client : MarketOrderRequest → CallOutcome)
    (symbol side : String) (quantity : ℚ) : Json :=
  match client (marketOrderRequest symbol side quantity) with
  | .success order => order
  | .apiExn msg body => apiErrorResult msg body
  | .orderExn msg body => apiErrorResult msg body
  | .otherExn msg => plainErrorResult msg

/-- Outbound request of `futures_create_order` for a limit order; `price`
is the string the method passes (`str(price)`). -/
structure LimitOrderRequest where
  symbol : String
  side : String
  type : String
  timeInForce : String
  quantity : ℚ
  price : String
deriving DecidableEq

/-- Renders a Python float (modelled as an exact rational in lowest terms)
the way CPython's `str` renders binary64 values that are exact decimals:
the minimal number of fractional digits, with `.0` kept when the value is
integral.  The minimal digit count is the least `k` with `den ∣ 10 ^ k`,
and the scaled integer is recovered as `num * (10 ^ k / den)` so that no
rational arithmetic is needed. -/
def pyFloatStr (q : ℚ) : String :=
  match (List.range 21).find? (fun k => 10 ^ k % q.den = 0) with
  | none => toString q
  | some 0 => toString q.num ++ ".0"
  | some k =>
      let m := q.num.natAbs * (10 ^ k / q.den)
      let sign := if q.num < 0 then "-" else ""
      let ipart := toString (m / 10 ^ k)
      let fdigits := toString (m % 10 ^ k)
      let fpart := String.mk (List.replicate (k - fdigits.length) '0') ++ fdigits
      sign ++ ipart ++ "." ++ fpart

/-- Request built by `place_limit_order`: symbol and side upper-cased,
`type=Client.ORDER_TYPE_LIMIT`, `timeInForce=Client.TIME_IN_FORCE_GTC`,
quantity passed through, price rendered with `str`. -/
def limitOrderRequest (symbol side : String) (quantity price : ℚ) : LimitOrderRequest :=
  ⟨pyUpper symbol, pyUpper side, "LIMIT", "GTC", quantity, pyFloatStr price⟩

/-- Model of `BasicBot.place_limit_order(symbol, side, quantity, price)`. -/
def BasicBot.place_limit_order (client : LimitOrderRequest → CallOutcome)
    (symbol side : String) (quantity price : ℚ) : Json :=
  match client (limitOrderRequest symbol side quantity price) with
  | .success order => order
  | .apiExn msg body => apiErrorResult msg body
  | .orderExn msg body => apiErrorResult msg body
  | .otherExn msg => plainErrorResult msg

/-- Outbound request of `futures_get_order`. -/
structure StatusRequest where
  symbol : String
  orderId : Int
deriving DecidableEq

/-- Model of `BasicBot.get_order_status(symbol, order_id)`.  Note the
method has no `BinanceOrderException` clause, so that exception falls to
the generic handler (message only, no details). -/
def BasicBot.get_order_status (client : StatusRequest → CallOutcome)
    (symbol : String) (order_id : Int) : Json :=
  match client ⟨pyUpper symbol, order_id⟩ with
  | .success order_status => order_status
  | .apiExn msg body => apiErrorResult msg body
  | .orderExn msg _ => plainErrorResult msg
  | .otherExn msg => plainErrorResult msg

/-- Behaviour of `futures_account_balance()`: on success the exchange
returns a JSON array of balance records. -/
inductive BalanceCallOutcome where
  | success : List Json → BalanceCallOutcome
  | apiExn : String → Option Json → BalanceCallOutcome
  | orderExn : String → Option Json → BalanceCallOutcome
  | otherExn : String → BalanceCallOutcome

/-- True on the three exception behaviours, false on success. -/
def BalanceCallOutcome.isFailure : BalanceCallOutcome → Bool
  | .success _ => false
  | _ => true

/-- The `for balance_info in balances` loop of `get_account_balance`:
return the first record whose `'asset'` entry equals `asset.upper()`
(Python `==` against a non-string value is simply false); a record where
`balance_info['asset']` raises aborts into the generic handler; an
exhausted loop yields the synthesized not-found failure. -/
def scanBalances (asset : String) : List Json → Json
  | [] => plainErrorResult ("Asset " ++ asset ++ " not found.")
  | balance_info :: rest =>
      match balance_info with
      | .obj fields =>
          match lookupField fields "asset" with
          | some (Json.str a) =>
              if a = pyUpper asset then Json.obj fields else scanBalances asset rest
          | some _ => scanBalances asset rest
          | none => plainErrorResult "'asset'"
      | .str _ => plainErrorResult "string indices must be integers"
      | .arr _ => plainErrorResult "list indices must be integers or slices, not str"
      | .num _ => plainErrorResult "'int' object is not subscriptable"

/-- Model of `BasicBot.get_account_balance(asset)`.  Like
`get_order_status`, a `BinanceOrderException` falls to the generic
handler. -/
def BasicBot.get_account_balance (client : Unit → BalanceCallOutcome)
    (asset : String) : Json :=
  match client () with
  | .success balances => scanBalances asset balances
  | .apiExn msg body => apiErrorResult msg body
  | .orderExn msg _ => plainErrorResult msg
  | .otherExn msg => plainErrorResult msg

/-- The `'asset'` entry of a balance record, when the record is a dict
that has one. -/
def entryAsset (e : Json) : Option Json :=
  match e with
  | .obj fields => lookupField fields "asset"
  | _ => none

/-- Value of a nonempty run of decimal digit characters; `none` when the
run is empty or contains a non-digit. -/
def digitsToNat : List Char → ℕ → Option ℕ
  | [], acc => some acc
  | c :: rest, acc =>
      if '0' ≤ c ∧ c ≤ '9' then digitsToNat rest (acc * 10 + (c.toNat - 48))
      else none

/-- Nonempty all-digit run, as a number. -/
def digitRun (l : List Char) : Option ℕ :=
  match l with
  | [] => none
  | _ => digitsToNat l 0

/-- Strips one optional leading sign, returning the sign factor and the rest. -/
def stripSign : List Char → Int × List Char
  | '-' :: rest => (-1, rest)
  | '+' :: rest => (1, rest)
  | l => (1, l)

/-- Model of Python `float(s)` on plain decimal literals (the form-field
inputs): optional sign, integer digits, an optional point, fractional
digits (Python accepts a missing integer or fractional part but not both).
Returns the exact rational value of the decimal text; `none` models the
`ValueError` on non-numeric text. -/
def parseDecimal (s : String) : Option ℚ :=
  let signed := stripSign s.data
  let ipart := signed.2.takeWhile (fun c => c ≠ '.')
  match signed.2.dropWhile (fun c => c ≠ '.') with
  | [] => (digitRun ipart).map (fun n => mkRat (signed.1 * n) 1)
  | _ :: fpart =>
      if fpart.contains '.' then none
      else if ipart = [] ∧ fpart = [] then none
      else
        let iv : Option ℕ := if ipart = [] then some 0 else digitRun ipart
        let fv : Option ℕ := if fpart = [] then some 0 else digitRun fpart
        match iv, fv with
        | some i, some f =>
            some (mkRat (signed.1 * (i * 10 ^ fpart.length + f)) (10 ^ fpart.length))
        | _, _ => none

/-- Model of Python `int(s)` on the order-id field: optional sign and
digits; `none` models the `ValueError` on non-numeric text. -/
def parsePyInt (s : String) : Option Int :=
  let signed := stripSign s.data
  (digitRun signed.2).map (fun n => signed.1 * n)

/-- The radio-button choice of the order form. -/
inductive OrderType where
  | market
  | limit
deriving DecidableEq

/-- What the order-form submit handler does with the collected field
values: show a validation error without calling the facade, or invoke one
of the two order operations with the parsed arguments. -/
inductive FormAction where
  | rejected
  | callMarket (symbol side : String) (quantity : ℚ)
  | callLimit (symbol side : String) (quantity price : ℚ)
deriving DecidableEq

/-- Model of the order form's submit branch (`if submit_button:` in the
Streamlit UI): `quantity = float(quantity_str)` (a `ValueError` lands in
the `except ValueError` branch with no facade call), reject non-positive
quantity, then dispatch on the order type; for a limit order
`price = float(price_str)` is parsed and checked positive before
`place_limit_order` is invoked. -/
def orderFormSubmit (order_type : OrderType) (symbol side quantity_str price_str : String) :
    FormAction :=
  match parseDecimal quantity_str with
  | none => FormAction.rejected
  | some quantity =>
      if quantity ≤ 0 then FormAction.rejected
      else
        match order_type with
        | OrderType.market => FormAction.callMarket symbol side quantity
        | OrderType.limit =>
            match parseDecimal price_str with
            | none => FormAction.rejected
            | some price =>
                if price ≤ 0 then FormAction.rejected
                else FormAction.callLimit symbol side quantity price

/-- Model of the status form's submit branch: warn (no call) when either
field is empty, `order_id = int(order_id_str)` (a `ValueError` means no
call), then invoke `get_order_status(status_symbol, order_id)`; the result
is `some` of the facade call's arguments when the facade is invoked. -/
def statusFormSubmit (status_symbol order_id_str : String) : Option (String × Int) :=
  if status_symbol = "" || order_id_str = "" then none
  else (parsePyInt order_id_str).map (fun order_id => (status_symbol, order_id))

/-- Whether a balance record is a dict carrying an `'asset'` key (so the
scan's subscript cannot raise on it). -/
def entryHasAsset (e : Json) : Bool :=
  match e with
  | .obj fields => (lookupField fields "asset").isSome
  | _ => false

/-- Whether a balance record's `'asset'` entry is the string `target`
(the comparison the scan performs, with `target = asset.upper()`). -/
def entryMatches (target : String) (e : Json) : Bool :=
  match e with
  | .obj fields =>
      match lookupField fields "asset" with
      | some (Json.str a) => a = target
      | _ => false
  | _ => false

lemma scanBalances_cons_skip (asset : String) (e : Json) (l : List Json)
    (h1 : entryHasAsset e = true) (h2 : entryMatches (pyUpper asset) e = false) :
    scanBalances asset (e :: l) = scanBalances asset l := by
  cases e with
  | obj fields =>
      cases hv : lookupField fields "asset" with
      | none => simp [entryHasAsset, hv] at h1
      | some v =>
          cases v with
          | str a =>
              have ha : ¬ a = pyUpper asset := by
                simpa [entryMatches, hv] using h2
              simp [scanBalances, hv, ha]
          | num n => simp [scanBalances, hv]
          | arr xs => simp [scanBalances, hv]
          | obj fs => simp [scanBalances, hv]
  | str s => simp [entryHasAsset] at h1
  | num n => simp [entryHasAsset] at h1
  | arr xs => simp [entryHasAsset] at h1

lemma scanBalances_cons_found (asset : String) (e : Json) (l : List Json)
    (h : entryMatches (pyUpper asset) e = true) :
    scanBalances asset (e :: l) = e := by
  cases e with
  | obj fields =>
      cases hv : lookupField fields "asset" with
      | none => simp [entryMatches, hv] at h
      | some v =>
          cases v with
          | str a =>
              have ha : a = pyUpper asset := by
                simpa [entryMatches, hv] using h
              simp [scanBalances, hv, ha]
          | num n => simp [entryMatches, hv] at h
          | arr xs => simp [entryMatches, hv] at h
          | obj fs => simp [entryMatches, hv] at h
  | str s => simp [entryMatches] at h
  | num n => simp [entryMatches] at h
  | arr xs => simp [entryMatches] at h

lemma scanBalances_not_found (asset : String) (l : List Json)
    (h : ∀ e ∈ l, entryHasAsset e = true ∧ entryMatches (pyUpper asset) e = false) :
    scanBalances asset l = plainErrorResult ("Asset " ++ asset ++ " not found.") := by
  induction l with
  | nil => rfl
  | cons e rest ih =>
      have he := h e (List.mem_cons_self e rest)
      rw [scanBalances_cons_skip asset e rest he.1 he.2]
      exact ih (fun x hx => h x (List.mem_cons_of_mem e hx))

lemma scanBalances_mem_or_not_found (asset : String) (l : List Json)
    (h : ∀ e ∈ l, entryHasAsset e = true) :
    scanBalances asset l ∈ l ∨
      scanBalances asset l = plainErrorResult ("Asset " ++ asset ++ " not found.") := by
  induction l with
  | nil => exact Or.inr rfl
  | cons e rest ih =>
      cases hm : entryMatches (pyUpper asset) e with
      | true =>
          rw [scanBalances_cons_found asset e rest hm]
          exact Or.inl (List.mem_cons_self e rest)
      | false =>
          rw [scanBalances_cons_skip asset e rest (h e (List.mem_cons_self e rest)) hm]
          rcases ih (fun x hx => h x (List.mem_cons_of_mem e hx)) with hmem | hnf
          · exact Or.inl (List.mem_cons_of_mem e hmem)
          · exact Or.inr hnf

lemma scanBalances_error_key_iff (asset : String) (l : List Json)
    (hwf : ∀ e ∈ l, entryHasAsset e = true)
    (herr : ∀ e ∈ l, e.hasKey "error" = false) :
    (scanBalances asset l).hasKey "error" = true ↔
      ∀ e ∈ l, entryMatches (pyUpper asset) e = false := by
  induction l with
  | nil => simp [scanBalances, plainErrorResult, Json.hasKey, lookupField]
  | cons e rest ih =>
      cases hm : entryMatches (pyUpper asset) e with
      | true =>
          rw [scanBalances_cons_found asset e rest hm]
          simp only [herr e (List.mem_cons_self e rest)]
          constructor
          · intro hfalse; exact absurd hfalse (by simp)
          · intro hall
            have := hall e (List.mem_cons_self e rest)
            rw [hm] at this
            exact absurd this (by simp)
      | false =>
          rw [scanBalances_cons_skip asset e rest (hwf e (List.mem_cons_self e rest)) hm]
          rw [ih (fun x hx => hwf x (List.mem_cons_of_mem e hx))
              (fun x hx => herr x (List.mem_cons_of_mem e hx))]
          constructor
          · intro hall x hx
            rcases List.mem_cons.mp hx with hx | hx
            · rw [hx]; exact hm
            · exact hall x hx
          · intro hall x hx; exact hall x (List.mem_cons_of_mem e hx)

lemma scanBalances_append_found (asset : String) (pre : List Json) (e : Json) (post : List Json)
    (hpre : ∀ x ∈ pre, entryHasAsset x = true ∧ entryMatches (pyUpper asset) x = false)
    (he : entryMatches (pyUpper asset) e = true) :
    scanBalances asset (pre ++ e :: post) = e := by
  induction pre with
  | nil => exact scanBalances_cons_found asset e post he
  | cons x rest ih =>
      have hx := hpre x (List.mem_cons_self x rest)
      rw [List.cons_append, scanBalances_cons_skip asset x (rest ++ e :: post) hx.1 hx.2]
      exact ih (fun y hy => hpre y (List.mem_cons_of_mem x hy))

/-- Balance record used in the spec's own example:
`{"asset":"USDT","balance":"100.0"}`. -/
def usdtEntry : Json :=
  Json.obj [("asset", Json.str "USDT"), ("balance", Json.str "100.0")]

/-- A balance record whose asset code is stored in lower case. -/
def lowercaseEntry : Json :=
  Json.obj [("asset", Json.str "usdt"), ("balance", Json.str "100.0")]

/-- C2 counterexample: when the caught `BinanceAPIException` carries no
response body, `place_market_order` does not omit the `details` key — it
sets it to the placeholder string `No response details`. -/
theorem market_order_missing_body_details_present :
    BasicBot.place_market_order
        (fun _ => CallOutcome.apiExn "APIError(code=-1021): Timestamp outside recvWindow." none)
        "BTCUSDT" "BUY" (mkRat 1 1000)
      = Json.obj [("error", Json.str "APIError(code=-1021): Timestamp outside recvWindow."),
                  ("details", Json.str "No response details")] ∧
    (BasicBot.place_market_order
        (fun _ => CallOutcome.apiExn "APIError(code=-1021): Timestamp outside recvWindow." none)
        "BTCUSDT" "BUY" (mkRat 1 1000)).hasKey "details" = true :=
  ⟨rfl, by decide⟩

/-- C2 amended: the generic exception handlers of all five operations and
every failure path of `get_server_time` omit `details`, but the
`BinanceAPIException` handlers of `place_market_order`, `place_limit_order`,
`get_order_status` and `get_account_balance` set `details` to the
placeholder string `No response details` when the exception carries no
response body, so presence-of-key does not discriminate there. -/
theorem missing_body_details_placeholder :
    (∀ msg body, (BasicBot.get_server_time
        (fun _ => CallOutcome.apiExn msg body)).hasKey "details" = false) ∧
    (∀ msg sym side q, (BasicBot.place_market_order
        (fun _ => CallOutcome.otherExn msg) sym side q).hasKey "details" = false) ∧
    (∀ msg sym side q pr, (BasicBot.place_limit_order
        (fun _ => CallOutcome.otherExn msg) sym side q pr).hasKey "details" = false) ∧
    (∀ msg sym oid, (BasicBot.get_order_status
        (fun _ => CallOutcome.otherExn msg) sym oid).hasKey "details" = false) ∧
    (∀ msg asset, (BasicBot.get_account_balance
        (fun _ => BalanceCallOutcome.otherExn msg) asset).hasKey "details" = false) ∧
    (∀ msg sym side q, BasicBot.place_market_order
        (fun _ => CallOutcome.apiExn msg none) sym side q
        = Json.obj [("error", Json.str msg), ("details", Json.str "No response details")]) ∧
    (∀ msg sym side q pr, BasicBot.place_limit_order
        (fun _ => CallOutcome.apiExn msg none) sym side q pr
        = Json.obj [("error", Json.str msg), ("details", Json.str "No response details")]) ∧
    (∀ msg sym oid, BasicBot.get_order_status
        (fun _ => CallOutcome.apiExn msg none) sym oid
        = Json.obj [("error", Json.str msg), ("details", Json.str "No response details")]) ∧
    (∀ msg asset, BasicBot.get_account_balance
        (fun _ => BalanceCallOutcome.apiExn msg none) asset
        = Json.obj [("error", Json.str msg), ("details", Json.str "No response details")]) :=
  ⟨fun _ _ => rfl, fun _ _ _ _ => rfl, fun _ _ _ _ _ => rfl, fun _ _ _ => rfl,
   fun _ _ => rfl, fun _ _ _ _ => rfl, fun _ _ _ _ _ => rfl, fun _ _ _ => rfl,
   fun _ _ => rfl⟩

/-- C3 counterexample: on a `BinanceAPIException` that carries a structured
response body, `get_server_time` returns only the message — it never
attaches `details`, unlike the other four operations. -/
theorem server_time_api_error_drops_details :
    BasicBot.get_server_time (fun _ => CallOutcome.apiExn
        "APIError(code=-1121): Invalid symbol."
        (some (Json.obj [("code", Json.num (-1121)), ("msg", Json.str "Invalid symbol.")])))
      = Json.obj [("error", Json.str "APIError(code=-1121): Invalid symbol.")] ∧
    (BasicBot.get_server_time (fun _ => CallOutcome.apiExn
        "APIError(code=-1121): Invalid symbol."
        (some (Json.obj [("code", Json.num (-1121)), ("msg", Json.str "Invalid symbol.")])))).hasKey
      "details" = false :=
  ⟨rfl, by decide⟩

/-- C3 amended: `place_market_order`, `place_limit_order`,
`get_order_status` and `get_account_balance` attach the parsed response
body as `details` on an API exception that carries one, and all five
operations return only the message on any other runtime fault; but
`get_server_time` returns only the message even when the API exception
carries a structured body, so the failure-normalization pattern is not
identical across the five operations. -/
theorem api_error_details_pattern_amended :
    (∀ msg b sym side q, BasicBot.place_market_order
        (fun _ => CallOutcome.apiExn msg (some b)) sym side q
        = Json.obj [("error", Json.str msg), ("details", b)]) ∧
    (∀ msg b sym side q pr, BasicBot.place_limit_order
        (fun _ => CallOutcome.apiExn msg (some b)) sym side q pr
        = Json.obj [("error", Json.str msg), ("details", b)]) ∧
    (∀ msg b sym oid, BasicBot.get_order_status
        (fun _ => CallOutcome.apiExn msg (some b)) sym oid
        = Json.obj [("error", Json.str msg), ("details", b)]) ∧
    (∀ msg b asset, BasicBot.get_account_balance
        (fun _ => BalanceCallOutcome.apiExn msg (some b)) asset
        = Json.obj [("error", Json.str msg), ("details", b)]) ∧
    (∀ msg b, BasicBot.get_server_time (fun _ => CallOutcome.apiExn msg (some b))
        = plainErrorResult msg) ∧
    (∀ msg, BasicBot.get_server_time (fun _ => CallOutcome.otherExn msg)
        = plainErrorResult msg) ∧
    (∀ msg sym side q, BasicBot.place_market_order
        (fun _ => CallOutcome.otherExn msg) sym side q = plainErrorResult msg) ∧
    (∀ msg sym side q pr, BasicBot.place_limit_order
        (fun _ => CallOutcome.otherExn msg) sym side q pr = plainErrorResult msg) ∧
    (∀ msg sym oid, BasicBot.get_order_status
        (fun _ => CallOutcome.otherExn msg) sym oid = plainErrorResult msg) ∧
    (∀ msg asset, BasicBot.get_account_balance
        (fun _ => BalanceCallOutcome.otherExn msg) asset = plainErrorResult msg) :=
  ⟨fun _ _ _ _ _ => rfl, fun _ _ _ _ _ _ => rfl, fun _ _ _ _ => rfl,
   fun _ _ _ => rfl, fun _ _ => rfl, fun _ => rfl, fun _ _ _ _ => rfl,
   fun _ _ _ _ _ => rfl, fun _ _ _ => rfl, fun _ _ => rfl⟩

/-- C4 counterexample: the order form accepts symbol BTCUSDT, side BUY,
quantity text 0.001 and price text 20000.50, yet the limit-order request
the facade builds submits the price as the string 20000.5, not the exact
decimal text the user gave. -/
theorem limit_price_text_not_preserved :
    orderFormSubmit OrderType.limit "BTCUSDT" "BUY" "0.001" "20000.50"
      = FormAction.callLimit "BTCUSDT" "BUY" (mkRat 1 1000) (mkRat 40001 2) ∧
    (limitOrderRequest "BTCUSDT" "BUY" (mkRat 1 1000) (mkRat 40001 2)).price = "20000.5" ∧
    "20000.5" ≠ "20000.50" :=
  ⟨by decide, by decide, by decide⟩

/-- C4 amended: the order form converts the price text with `float` before
dispatch and `place_limit_order` submits `str(price)`, so the submitted
price string is a function of the parsed numeric value alone — two price
texts with the same value yield the same submission, and the exact decimal
text is not preserved (trailing zeros are dropped, e.g. 20000.50 is
submitted as 20000.5). -/
theorem limit_price_value_dependence :
    (∀ sym side q p, (limitOrderRequest sym side q p).price = pyFloatStr p) ∧
    (∀ sym side qs ps1 ps2, parseDecimal ps1 = parseDecimal ps2 →
        orderFormSubmit OrderType.limit sym side qs ps1
          = orderFormSubmit OrderType.limit sym side qs ps2) ∧
    pyFloatStr (mkRat 40001 2) = "20000.5" := by
  refine ⟨fun _ _ _ _ => rfl, ?_, by decide⟩
  intro sym side qs ps1 ps2 h
  unfold orderFormSubmit
  rw [h]

/-- C4 witness: the value-dependence theorem applied to the two price
texts 20000.50 and 20000.5, which parse to the same value. -/
theorem limit_price_value_dependence_witness :
    orderFormSubmit OrderType.limit "BTCUSDT" "BUY" "0.001" "20000.50"
      = orderFormSubmit OrderType.limit "BTCUSDT" "BUY" "0.001" "20000.5" :=
  limit_price_value_dependence.2.1 "BTCUSDT" "BUY" "0.001" "20000.50" "20000.5" (by decide)

/-- C5 (confirmed): construction fails with the configuration error (the
raised `ValueError`) whenever the key or the secret is missing or empty,
and no handle is created on that path; when both are non-empty it returns
a handle. -/
theorem init_credential_check :
    (∀ k s t, strTruthy k = false ∨ strTruthy s = false →
        BasicBot.init k s t = Except.error "API Key and API Secret are required.") ∧
    (∀ k s t, strTruthy k = true → strTruthy s = true →
        ∃ bot, BasicBot.init k s t = Except.ok bot) := by
  constructor
  · intro k s t h
    rcases h with h | h <;> simp [BasicBot.init, h]
  · intro k s t hk hs
    exact ⟨⟨k, s, if t then some (TESTNET_BASE_URL ++ "/fapi") else none⟩,
           by simp [BasicBot.init, hk, hs]⟩

/-- C5 witness: the credential check at concrete inputs — an empty key
fails, a present pair succeeds. -/
theorem init_credential_check_witness :
    BasicBot.init (some "") (some "secret") true
      = Except.error "API Key and API Secret are required." ∧
    ∃ bot, BasicBot.init (some "key") (some "secret") true = Except.ok bot :=
  ⟨init_credential_check.1 (some "") (some "secret") true (Or.inl (by decide)),
   init_credential_check.2 (some "key") (some "secret") true (by decide) (by decide)⟩

/-- C6 (confirmed): symbol and side are upper-cased before submission, so
any two casings of the same symbol and side produce identical outbound
market and limit requests; in particular the spec's example pair of calls
produces identical requests and hence identical results for every
behaviour of the client. -/
theorem order_request_case_insensitive :
    (∀ sym1 sym2 side1 side2 : String, pyUpper sym1 = pyUpper sym2 →
      pyUpper side1 = pyUpper side2 →
      (∀ q : ℚ, marketOrderRequest sym1 side1 q = marketOrderRequest sym2 side2 q) ∧
      (∀ q p : ℚ, limitOrderRequest sym1 side1 q p = limitOrderRequest sym2 side2 q p)) ∧
    (∀ client q, BasicBot.place_market_order client "btcusdt" "buy" q
        = BasicBot.place_market_order client "BTCUSDT" "BUY" q) ∧
    (∀ client q p, BasicBot.place_limit_order client "btcusdt" "buy" q p
        = BasicBot.place_limit_order client "BTCUSDT" "BUY" q p) := by
  have hs : pyUpper "btcusdt" = pyUpper "BTCUSDT" := by decide
  have hd : pyUpper "buy" = pyUpper "BUY" := by decide
  refine ⟨?_, ?_, ?_⟩
  · intro sym1 sym2 side1 side2 h1 h2
    exact ⟨fun q => by simp [marketOrderRequest, h1, h2],
           fun q p => by simp [limitOrderRequest, h1, h2]⟩
  · intro client q
    unfold BasicBot.place_market_order marketOrderRequest
    rw [hs, hd]
  · intro client q p
    unfold BasicBot.place_limit_order limitOrderRequest
    rw [hs, hd]

/-- C6 witness: the request-equality part applied to the concrete casing
pair from the spec. -/
theorem order_request_case_insensitive_witness :
    marketOrderRequest "btcusdt" "buy" (mkRat 1 1000)
      = marketOrderRequest "BTCUSDT" "BUY" (mkRat 1 1000) :=
  (order_request_case_insensitive.1 "btcusdt" "BTCUSDT" "buy" "BUY"
    (by decide) (by decide)).1 (mkRat 1 1000)

/-- C9 counterexample: a status-form submission with the non-positive
order id text -1 is not rejected — the facade lookup is invoked with
order id -1. -/
theorem status_form_accepts_nonpositive_id :
    statusFormSubmit "BTCUSDT" "-1" = some ("BTCUSDT", -1) ∧ (-1 : Int) ≤ 0 :=
  ⟨by decide, by decide⟩

/-- C9 amended: the order form rejects non-numeric and non-positive
quantity and (for limit orders) price before any facade call, and the
status form rejects non-numeric order ids; but a numeric non-positive
order id is not validated — it is passed to the facade. -/
theorem form_validation_amended :
    (∀ ot sym side qs ps, parseDecimal qs = none →
        orderFormSubmit ot sym side qs ps = FormAction.rejected) ∧
    (∀ ot sym side qs ps q, parseDecimal qs = some q → q ≤ 0 →
        orderFormSubmit ot sym side qs ps = FormAction.rejected) ∧
    (∀ sym side qs ps, parseDecimal ps = none →
        orderFormSubmit OrderType.limit sym side qs ps = FormAction.rejected) ∧
    (∀ sym side qs ps p, parseDecimal ps = some p → p ≤ 0 →
        orderFormSubmit OrderType.limit sym side qs ps = FormAction.rejected) ∧
    (∀ sym ids, parsePyInt ids = none → statusFormSubmit sym ids = none) ∧
    statusFormSubmit "BTCUSDT" "-1" = some ("BTCUSDT", -1) := by
  refine ⟨?_, ?_, ?_, ?_, ?_, by decide⟩
  · intro ot sym side qs ps h
    unfold orderFormSubmit
    rw [h]
  · intro ot sym side qs ps q h hq
    unfold orderFormSubmit
    rw [h]
    simp [hq]
  · intro sym side qs ps h
    unfold orderFormSubmit
    cases hq : parseDecimal qs with
    | none => rfl
    | some q =>
        by_cases hq0 : q ≤ 0
        · simp [hq0]
        · simp [hq0, h]
  · intro sym side qs ps p h hp
    unfold orderFormSubmit
    cases hq : parseDecimal qs with
    | none => rfl
    | some q =>
        by_cases hq0 : q ≤ 0
        · simp [hq0]
        · simp [hq0, h, hp]
  · intro sym ids h
    unfold statusFormSubmit
    by_cases he : sym = "" || ids = ""
    · simp [he]
    · simp [he, h]

/-- C9 witness: the amended validation applied at concrete inputs — a
non-numeric quantity, a zero price and a non-numeric order id are all
rejected before dispatch. -/
theorem form_validation_amended_witness :
    orderFormSubmit OrderType.market "BTCUSDT" "BUY" "abc" "0" = FormAction.rejected ∧
    orderFormSubmit OrderType.limit "BTCUSDT" "BUY" "0.001" "0" = FormAction.rejected ∧
    statusFormSubmit "BTCUSDT" "12x" = none :=
  ⟨form_validation_amended.1 OrderType.market "BTCUSDT" "BUY" "abc" "0" (by decide),
   form_validation_amended.2.2.2.1 "BTCUSDT" "BUY" "0.001" "0" (mkRat 0 1)
     (by decide) (by decide),
   form_validation_amended.2.2.2.2.1 "BTCUSDT" "12x" (by decide)⟩

/-- C1 (confirmed): every behaviour of the underlying call yields a
returned result dict (the operations are total into `Json`); the result
carries the `error` key exactly on the failure paths — on every caught
exception for all five operations, and, for `get_account_balance`, also on
the synthesized not-found path, while genuine success payloads (well-formed
responses without an `error` key of their own) come back without it. -/
theorem facade_error_key_iff_failure :
    (∀ o : CallOutcome, o.isFailure = true →
        (BasicBot.get_server_time (fun _ => o)).hasKey "error" = true) ∧
    (∀ p : Json, p.hasKey "serverTime" = true → p.hasKey "error" = false →
        (BasicBot.get_server_time (fun _ => CallOutcome.success p)).hasKey "error" = false) ∧
    (∀ (o : CallOutcome) sym side q, o.isFailure = true →
        (BasicBot.place_market_order (fun _ => o) sym side q).hasKey "error" = true) ∧
    (∀ (p : Json) sym side q, p.hasKey "error" = false →
        (BasicBot.place_market_order (fun _ => CallOutcome.success p) sym side q).hasKey
          "error" = false) ∧
    (∀ (o : CallOutcome) sym side q pr, o.isFailure = true →
        (BasicBot.place_limit_order (fun _ => o) sym side q pr).hasKey "error" = true) ∧
    (∀ (p : Json) sym side q pr, p.hasKey "error" = false →
        (BasicBot.place_limit_order (fun _ => CallOutcome.success p) sym side q pr).hasKey
          "error" = false) ∧
    (∀ (o : CallOutcome) sym oid, o.isFailure = true →
        (BasicBot.get_order_status (fun _ => o) sym oid).hasKey "error" = true) ∧
    (∀ (p : Json) sym oid, p.hasKey "error" = false →
        (BasicBot.get_order_status (fun _ => CallOutcome.success p) sym oid).hasKey
          "error" = false) ∧
    (∀ (ob : BalanceCallOutcome) asset, ob.isFailure = true →
        (BasicBot.get_account_balance (fun _ => ob) asset).hasKey "error" = true) ∧
    (∀ (l : List Json) asset, (∀ e ∈ l, entryHasAsset e = true) →
        (∀ e ∈ l, e.hasKey "error" = false) →
        ((BasicBot.get_account_balance
            (fun _ => BalanceCallOutcome.success l) asset).hasKey "error" = true ↔
          ∀ e ∈ l, entryMatches (pyUpper asset) e = false)) := by
  refine ⟨?_, ?_, ?_, ?_, ?_, ?_, ?_, ?_, ?_, ?_⟩
  · intro o ho
    cases o with
    | success p => simp [CallOutcome.isFailure] at ho
    | apiExn m b => rfl
    | orderExn m b => rfl
    | otherExn m => rfl
  · intro p hp herr
    cases p with
    | obj fields =>
        cases hl : lookupField fields "serverTime" with
        | none => simp [Json.hasKey, hl] at hp
        | some v =>
            simpa [BasicBot.get_server_time, subscriptFailure, hl] using herr
    | str s => simp [Json.hasKey] at hp
    | num n => simp [Json.hasKey] at hp
    | arr xs => simp [Json.hasKey] at hp
  · intro o sym side q ho
    cases o with
    | success p => simp [CallOutcome.isFailure] at ho
    | apiExn m b => rfl
    | orderExn m b => rfl
    | otherExn m => rfl
  · intro p sym side q herr
    exact herr
  · intro o sym side q pr ho
    cases o with
    | success p => simp [CallOutcome.isFailure] at ho
    | apiExn m b => rfl
    | orderExn m b => rfl
    | otherExn m => rfl
  · intro p sym side q pr herr
    exact herr
  · intro o sym oid ho
    cases o with
    | success p => simp [CallOutcome.isFailure] at ho
    | apiExn m b => rfl
    | orderExn m b => rfl
    | otherExn m => rfl
  · intro p sym oid herr
    exact herr
  · intro ob asset ho
    cases ob with
    | success l => simp [BalanceCallOutcome.isFailure] at ho
    | apiExn m b => rfl
    | orderExn m b => rfl
    | otherExn m => rfl
  · intro l asset hwf herr
    exact scanBalances_error_key_iff asset l hwf herr

/-- C1 witness: the discrimination theorem at concrete inputs — a genuine
server-time payload comes back without `error`, a not-found balance scan
and a caught order exception come back with it. -/
theorem facade_error_key_iff_failure_witness :
    (BasicBot.get_server_time (fun _ => CallOutcome.success
        (Json.obj [("serverTime", Json.num 1700000000000)]))).hasKey "error" = false ∧
    (BasicBot.get_account_balance
        (fun _ => BalanceCallOutcome.success [usdtEntry]) "ZZZ").hasKey "error" = true ∧
    (BasicBot.place_market_order (fun _ => CallOutcome.orderExn "order rejected" none)
        "BTCUSDT" "BUY" (mkRat 1 1000)).hasKey "error" = true :=
  ⟨facade_error_key_iff_failure.2.1 (Json.obj [("serverTime", Json.num 1700000000000)])
      (by decide) (by decide),
   (facade_error_key_iff_failure.2.2.2.2.2.2.2.2.2 [usdtEntry] "ZZZ"
      (by decide) (by decide)).mpr (by decide),
   facade_error_key_iff_failure.2.2.1 (CallOutcome.orderExn "order rejected" none)
      "BTCUSDT" "BUY" (mkRat 1 1000) (by decide)⟩

/-- C7 counterexample: the transport call of `get_account_balance`
succeeds with the balance list, yet the operation's result is a
synthesized not-found failure, not the payload the transport returned. -/
theorem balance_not_passthrough :
    BasicBot.get_account_balance (fun _ => BalanceCallOutcome.success [usdtEntry]) "ZZZ"
      = plainErrorResult "Asset ZZZ not found." ∧
    plainErrorResult "Asset ZZZ not found." ≠ Json.arr [usdtEntry] := by
  refine ⟨rfl, ?_⟩
  intro h
  exact Json.noConfusion h

/-- C7 amended: the success result is exactly the transport payload for
`place_market_order`, `place_limit_order` and `get_order_status`, and for
`get_server_time` whenever the payload carries `serverTime`; but
`get_account_balance` post-processes the returned list — its success-path
result is an element of that list or the synthesized not-found failure,
never the list itself. -/
theorem success_passthrough_amended :
    (∀ p : Json, p.hasKey "serverTime" = true →
        BasicBot.get_server_time (fun _ => CallOutcome.success p) = p) ∧
    (∀ (p : Json) sym side q, BasicBot.place_market_order
        (fun _ => CallOutcome.success p) sym side q = p) ∧
    (∀ (p : Json) sym side q pr, BasicBot.place_limit_order
        (fun _ => CallOutcome.success p) sym side q pr = p) ∧
    (∀ (p : Json) sym oid, BasicBot.get_order_status
        (fun _ => CallOutcome.success p) sym oid = p) ∧
    (∀ asset (l : List Json), BasicBot.get_account_balance
        (fun _ => BalanceCallOutcome.success l) asset = scanBalances asset l) ∧
    (∀ asset (l : List Json), (∀ e ∈ l, entryHasAsset e = true) →
        scanBalances asset l ∈ l ∨
          scanBalances asset l = plainErrorResult ("Asset " ++ asset ++ " not found.")) := by
  refine ⟨?_, fun _ _ _ _ => rfl, fun _ _ _ _ _ => rfl, fun _ _ _ => rfl,
          fun _ _ => rfl, scanBalances_mem_or_not_found⟩
  intro p hp
  cases p with
  | obj fields =>
      cases hl : lookupField fields "serverTime" with
      | none => simp [Json.hasKey, hl] at hp
      | some v => simp [BasicBot.get_server_time, subscriptFailure, hl]
  | str s => simp [Json.hasKey] at hp
  | num n => simp [Json.hasKey] at hp
  | arr xs => simp [Json.hasKey] at hp

/-- C7 witness: pass-through of a concrete server-time payload, and the
element-or-not-found shape of a concrete balance scan. -/
theorem success_passthrough_amended_witness :
    BasicBot.get_server_time (fun _ => CallOutcome.success
        (Json.obj [("serverTime", Json.num 1700000000000)]))
      = Json.obj [("serverTime", Json.num 1700000000000)] ∧
    (scanBalances "USDT" [usdtEntry] ∈ [usdtEntry] ∨
      scanBalances "USDT" [usdtEntry]
        = plainErrorResult ("Asset " ++ "USDT" ++ " not found.")) :=
  ⟨success_passthrough_amended.1 (Json.obj [("serverTime", Json.num 1700000000000)])
      (by decide),
   success_passthrough_amended.2.2.2.2.2 "USDT" [usdtEntry] (by decide)⟩

/-- C8 counterexample: on a balance list whose record stores the asset
code in lower case, a request for exactly that code returns the not-found
failure instead of the record — the scan compares the record's code
verbatim against the upper-cased request, so it is not case-insensitive in
the list. -/
theorem balance_scan_not_case_insensitive :
    BasicBot.get_account_balance
        (fun _ => BalanceCallOutcome.success [lowercaseEntry]) "usdt"
      = plainErrorResult "Asset usdt not found." ∧
    plainErrorResult "Asset usdt not found." ≠ lowercaseEntry := by
  refine ⟨rfl, ?_⟩
  simp [plainErrorResult, lowercaseEntry]

/-- C8 amended: the scan upper-cases the requested asset code and compares
it for exact equality with each record's stored `asset` string: the first
record whose code equals `asset.upper()` is returned unchanged, and when no
record's code equals it the result is the failure message
`Asset <asset> not found.` with no `details` key — case-insensitive in the
request argument only, not in the stored codes. -/
theorem balance_scan_exact_match_amended :
    (∀ asset (l : List Json),
        (∀ e ∈ l, entryHasAsset e = true ∧ entryMatches (pyUpper asset) e = false) →
        BasicBot.get_account_balance (fun _ => BalanceCallOutcome.success l) asset
          = plainErrorResult ("Asset " ++ asset ++ " not found.") ∧
        (BasicBot.get_account_balance
            (fun _ => BalanceCallOutcome.success l) asset).hasKey "details" = false) ∧
    (∀ asset (pre : List Json) (e : Json) (post : List Json),
        (∀ x ∈ pre, entryHasAsset x = true ∧ entryMatches (pyUpper asset) x = false) →
        entryMatches (pyUpper asset) e = true →
        BasicBot.get_account_balance
          (fun _ => BalanceCallOutcome.success (pre ++ e :: post)) asset = e) ∧
    BasicBot.get_account_balance (fun _ => BalanceCallOutcome.success [usdtEntry]) "USDT"
      = usdtEntry := by
  refine ⟨?_, ?_, rfl⟩
  · intro asset l h
    have hnf := scanBalances_not_found asset l h
    refine ⟨hnf, ?_⟩
    show (scanBalances asset l).hasKey "details" = false
    rw [hnf]
    rfl
  · intro asset pre e post hpre he
    exact scanBalances_append_found asset pre e post hpre he

/-- C8 witness: the amended scan at concrete inputs — an absent code
yields the not-found failure, and a matching record after a skipped
lower-case record is returned unchanged. -/
theorem balance_scan_exact_match_amended_witness :
    BasicBot.get_account_balance (fun _ => BalanceCallOutcome.success [usdtEntry]) "ZZZ"
      = plainErrorResult ("Asset " ++ "ZZZ" ++ " not found.") ∧
    BasicBot.get_account_balance
        (fun _ => BalanceCallOutcome.success ([lowercaseEntry] ++ usdtEntry :: [])) "usdt"
      = usdtEntry :=
  ⟨(balance_scan_exact_match_amended.1 "ZZZ" [usdtEntry] (by decide)).1,
   balance_scan_exact_match_amended.2.1 "usdt" [lowercaseEntry] usdtEntry []
      (by decide) (by decide)⟩

/-- C10 (confirmed): the not-found message interpolates the caller's
original asset text even though the match is performed against the
upper-cased form: a request for zzz on a list without a matching record
yields the error message with zzz in the caller's casing. -/
theorem not_found_message_original_casing :
    (∀ asset (l : List Json),
        (∀ e ∈ l, entryHasAsset e = true ∧ entryMatches (pyUpper asset) e = false) →
        BasicBot.get_account_balance (fun _ => BalanceCallOutcome.success l) asset
          = plainErrorResult ("Asset " ++ asset ++ " not found.")) ∧
    BasicBot.get_account_balance (fun _ => BalanceCallOutcome.success [usdtEntry]) "zzz"
      = plainErrorResult "Asset zzz not found." ∧
    pyUpper "zzz" = "ZZZ" := by
  refine ⟨?_, rfl, by decide⟩
  intro asset l h
  exact scanBalances_not_found asset l h

/-- C10 witness: the general not-found statement applied at the concrete
lower-case request zzz. -/
theorem not_found_message_original_casing_witness :
    BasicBot.get_account_balance (fun _ => BalanceCallOutcome.success []) "zzz"
      = plainErrorResult ("Asset " ++ "zzz" ++ " not found.") :=
  not_found_message_original_casing.1 "zzz" [] (by decide)
